import Mathlib

/-!
Shallow embedding of the VODArchiver repository (src/app.py, src/twitch.py).

Conventions used throughout:
* `datetime.utcnow()` readings are modelled as `Int` values counting milliseconds;
  a `timedelta` is the `Int` difference of two such readings.  Python's
  `int((b - a).total_seconds())` truncates toward zero, which at millisecond
  granularity is `Int.tdiv (b - a) 1000`.
* Coroutines that can raise are modelled as `Except PyErr _` values; the side
  effects that matter to the claims (which collaborator calls ran) are returned
  as explicit event lists.
* The clock readings that the Python code obtains by calling `datetime.utcnow()`
  inside a function body become explicit `now` parameters of the embedded
  function.
-/

namespace VODArchiver

/-- Python exception classes relevant to the claims.  `clientTransport` stands for
an `aiohttp.ClientError` raised at the transport level (connection reset, timeout),
`clientStatus c` for an `aiohttp.ClientResponseError` raised by
`raise_for_status=True` on an HTTP response with status `c` (a subclass of
`ClientError`), `typeError` for Python's `TypeError`, and `osError` for an
`OSError` from file removal. -/
inductive PyErr
  | clientTransport
  | clientStatus (code : Nat)
  | typeError
  | osError
deriving DecidableEq

/-- Membership test of Python's `aiohttp.ClientError` class, the exception class
the `backoff.on_exception` decorator in `twitch.py` retries on.
`ClientResponseError` (any HTTP-status error, including every 4xx) is a subclass
of `ClientError`, so it is retried too; `TypeError` and `OSError` are not. -/
def isClientError : PyErr → Bool
  | PyErr.clientTransport => true
  | PyErr.clientStatus _ => true
  | PyErr.typeError => false
  | PyErr.osError => false

/-- The `Stream` pydantic model of `twitch.py` (one snapshot returned by the
`helix/streams` query).  `started_at` is a datetime, modelled as `Int`
milliseconds. -/
structure Stream where
  id : String
  type : String
  title : String
  user_login : String
  user_name : String
  game_id : String
  game_name : String
  started_at : Int
  viewer_count : Int
deriving DecidableEq

/-- The `GameUpdate` pydantic model of `app.py`: one timeline entry; `timestamp`
is a `timedelta` in whole seconds (the code truncates with `int(...)`). -/
structure GameUpdate where
  game_name : String
  timestamp : Int
deriving DecidableEq

/-- The `CurrentStream` pydantic model of `app.py` (it extends `Stream` with
`saving_at` and `timeline`).  `saving_at` is a datetime in milliseconds. -/
structure CurrentStream where
  id : String
  type : String
  title : String
  user_login : String
  user_name : String
  game_id : String
  game_name : String
  started_at : Int
  viewer_count : Int
  saving_at : Int
  timeline : List GameUpdate
deriving DecidableEq

/-- Embeds `int((now - saving_at).total_seconds())` from
`CurrentStream.update`: millisecond difference truncated toward zero to whole
seconds (`Int.tdiv` truncates toward zero exactly as Python's `int()` does). -/
def elapsedSeconds (now saving_at : Int) : Int :=
  (now - saving_at).tdiv 1000

/-- Embeds `CurrentStream.new` from `app.py`.  The classmethod copies the
snapshot's fields but passes `game_id = 0` (which pydantic coerces to the string
`"0"` for the `str`-typed field) and `game_name = ""`, and does not pass
`saving_at` or `timeline`, so they take the field defaults.  Crucially, the field
default `saving_at: datetime = datetime.utcnow()` is evaluated once, when Python
executes the class body at module load; pydantic reuses that value for every
instance.  The shared class-default value is therefore a parameter
`default_saving_at` here, and it is NOT the creation time of the record.
pydantic does copy the mutable `timeline` default per instance, so the timeline
starts empty. -/
def CurrentStream.new (default_saving_at : Int) (stream : Stream) : CurrentStream :=
  { id := stream.id
    type := stream.type
    title := stream.title
    user_login := stream.user_login
    user_name := stream.user_name
    game_id := "0"
    game_name := ""
    started_at := stream.started_at
    viewer_count := stream.viewer_count
    saving_at := default_saving_at
    timeline := [] }

/-- First half of `CurrentStream.update`: the `if game_id != self.game_id` block.
It assigns the new `game_id` and `game_name` and then appends a timeline entry
whose name is the just-assigned `self.game_name` and whose timestamp is
`int((utcnow() - self.saving_at).total_seconds())`. -/
def CurrentStream.updateGame (s : CurrentStream) (now : Int) (game_id game_name : String) :
    CurrentStream :=
  if game_id ≠ s.game_id then
    { s with
      game_id := game_id
      game_name := game_name
      timeline := s.timeline ++ [⟨game_name, elapsedSeconds now s.saving_at⟩] }
  else s

/-- Second half of `CurrentStream.update`: the `if viewer_count != self.viewer_count`
block, which only refreshes the viewer count. -/
def CurrentStream.updateViewer (s : CurrentStream) (viewer_count : Int) : CurrentStream :=
  if viewer_count ≠ s.viewer_count then { s with viewer_count := viewer_count } else s

/-- Embeds `CurrentStream.update` from `app.py`: the game block runs first, then
the viewer-count block (the Python method mutates `self` in this order). -/
def CurrentStream.update (s : CurrentStream) (now : Int) (game_id game_name : String)
    (viewer_count : Int) : CurrentStream :=
  (s.updateGame now game_id game_name).updateViewer viewer_count

/-- One call to `CurrentStream.update`, with the `datetime.utcnow()` reading made
explicit as `now`. -/
structure UpdateInput where
  now : Int
  game_id : String
  game_name : String
  viewer_count : Int
deriving DecidableEq

/-- Applies a sequence of `CurrentStream.update` calls, in order.  Together with
`CurrentStream.new` this generates every CaptureRecord the program can reach:
`Monitor.update` only ever creates records with `new` and mutates them with
`update`. -/
def applyUpdates : CurrentStream → List UpdateInput → CurrentStream
  | s, [] => s
  | s, u :: us => applyUpdates (s.update u.now u.game_id u.game_name u.viewer_count) us

/-- The `Status` enum of `app.py`. -/
inductive Status
  | OFFLINE
  | LIVE
deriving DecidableEq

/-- The `Monitor` pydantic model of `app.py`: one entry per configured channel. -/
structure Monitor where
  status : Status
  twitch : String
  g_refresh_token : String
  stream : Option CurrentStream
deriving DecidableEq

/-- Embeds `currently_live = stream and stream.type == "live"` from
`Monitor.update` (an absent snapshot is falsy). -/
def isLiveSnapshot : Option Stream → Bool
  | none => false
  | some s => s.type == "live"

/-- Embeds `Monitor.update` from `app.py`.  The method takes the (possibly
absent) snapshot and branches on `self.status` and `currently_live`:
OFFLINE + live creates the record with `CurrentStream.new`, immediately applies
the first update with the same snapshot's fields, and (not modelled here, see
`startTrace`) fires `asyncio.create_task(self.start())`; LIVE + live applies an
update; LIVE + not-live only flips the status (the commented-out
`self.stream = None` means the record is kept).  While LIVE the record is always
present, so the `none` fallback in the second branch is unreachable from states
this function itself produces (in Python it would be an `AttributeError`). -/
def Monitor.update (default_saving_at now : Int) (m : Monitor) (snap : Option Stream) :
    Monitor :=
  match m.status, isLiveSnapshot snap, snap with
  | Status.OFFLINE, true, some s =>
      let cs := CurrentStream.new default_saving_at s
      let cs := cs.update now s.game_id s.game_name s.viewer_count
      { m with status := Status.LIVE, stream := some cs }
  | Status.LIVE, true, some s =>
      match m.stream with
      | some cs =>
          { m with stream := some (cs.update now s.game_id s.game_name s.viewer_count) }
      | none => m
  | Status.LIVE, false, _ => { m with status := Status.OFFLINE }
  | _, _, _ => m

/-- Embeds the dispatch step of `TwitchArchiver.run`:

  for mon in self.monitored:
      if stream := list(filter(lambda x: x.user_login == mon.twitch, streams)):
          await mon.update(stream[0])

Note the walrus-`if`: when the filter result is empty (the snapshot for the
channel is absent this cycle) the list is falsy and `mon.update` is NOT called
at all; only a present snapshot is ever dispatched. -/
def dispatchCycle (default_saving_at now : Int) (mons : List Monitor)
    (streams : List Stream) : List Monitor :=
  mons.map fun mon =>
    match streams.filter (fun x => x.user_login == mon.twitch) with
    | [] => mon
    | s :: _ => Monitor.update default_saving_at now mon (some s)

/-- Embeds the interval computation of `TwitchArchiver.run`:
`refresh = 30 if "live" in list(s.type for s in streams) else 2`. -/
def computeRefresh (streams : List Stream) : Int :=
  if (streams.map (fun s => s.type)).contains "live" then 30 else 2

/-- One iteration of the `while True` loop of `TwitchArchiver.run`: the snapshot
listing (`get_streams`) either raises — in which case the exception propagates,
since the loop body has no `try`/`except` — or yields a snapshot list, after
which the interval is computed and the monitors are dispatched. -/
def runCycle (default_saving_at now : Int) (mons : List Monitor)
    (streamsResult : Except PyErr (List Stream)) : Except PyErr (List Monitor × Int) :=
  match streamsResult with
  | Except.error e => Except.error e
  | Except.ok streams =>
      Except.ok (dispatchCycle default_saving_at now mons streams, computeRefresh streams)

/-- The `while True` loop of `TwitchArchiver.run`, driven by one
`(utcnow reading, get_streams outcome)` pair per cycle.  An exception in any
cycle propagates out of `run` (there is no handler anywhere in the loop), so
the remaining cycles never execute. -/
def runLoop (default_saving_at : Int) :
    List Monitor → List (Int × Except PyErr (List Stream)) → Except PyErr (List Monitor)
  | mons, [] => Except.ok mons
  | mons, (now, r) :: rest =>
      match runCycle default_saving_at now mons r with
      | Except.error e => Except.error e
      | Except.ok (mons', _) => runLoop default_saving_at mons' rest

/-- Modelled from the spec: the spec's poll loop treats a failed snapshot listing
as "no data this cycle" and continues polling on subsequent cycles
(spec §4.2/§4.5: the `TransientNetworkError` "is non-fatal to the process — the
poll loop treats it as 'no data this cycle' and continues").  This comparison
definition skips the failed cycle and keeps looping; `runLoop` above embeds what
the source actually does. -/
def runLoopSpecModel (default_saving_at : Int) :
    List Monitor → List (Int × Except PyErr (List Stream)) → Except PyErr (List Monitor)
  | mons, [] => Except.ok mons
  | mons, (_, Except.error _) :: rest => runLoopSpecModel default_saving_at mons rest
  | mons, (now, Except.ok streams) :: rest =>
      runLoopSpecModel default_saving_at (dispatchCycle default_saving_at now mons streams) rest

/-- Embeds the `@backoff.on_exception(backoff.expo, aiohttp.ClientError, max_time=60)`
decorator on `Twitch._request`.  The list holds the outcomes of the successive
attempts that fit inside the 60-second retry window, the last element being the
final attempt made as the window elapses.  A success is returned immediately; an
exception that is an `aiohttp.ClientError` triggers a retry while attempts
remain and is re-raised once the window is exhausted; any other exception
(e.g. the `TypeError` that `Token.__init__` can raise inside the attempt) is not
caught by the decorator and propagates immediately. -/
def backoffRun {α : Type} : List (Except PyErr α) → Except PyErr α
  | [] => Except.error PyErr.clientTransport
  | [a] => a
  | a :: b :: rest =>
      match a with
      | Except.ok r => Except.ok r
      | Except.error e =>
          if isClientError e then backoffRun (b :: rest) else Except.error e

/-- The fields `Token.__init__` reads from the token endpoint's JSON body with
`data.get(...)`: either key may be absent. -/
structure TokenData where
  access_token : Option String
  expires_in : Option Int
deriving DecidableEq

/-- The `Token` object of `twitch.py`.  The class attributes give `token = None`
and `expires_at = 0` when `__init__` receives no (or falsy) data. -/
structure Token where
  token : Option String
  expires_at : Int
deriving DecidableEq

/-- Embeds `Token.__init__` from `twitch.py`, with the `datetime.utcnow()`
reading explicit.  With falsy `data` the class attributes stand
(`token = None`, `expires_at = 0`).  With data, `token = data.get('access_token')`
never raises (it may be `None`), but
`expires_at = utcnow() + timedelta(seconds=data.get('expires_in'))` raises a
`TypeError` when `expires_in` is absent — `timedelta(seconds=None)` is a type
error — and then the half-built object is discarded.  No HTTP status is ever
checked before this constructor runs, and no dedicated auth-error class exists
anywhere in the source. -/
def Token.init (now : Int) : Option TokenData → Except PyErr Token
  | none => Except.ok { token := none, expires_at := 0 }
  | some d =>
      match d.expires_in with
      | none => Except.error PyErr.typeError
      | some e => Except.ok { token := d.access_token, expires_at := now + e }

/-- Embeds the `Token.expired` property:
`self.token is None or self.expires_at < datetime.utcnow()`. -/
def Token.expired (now : Int) (t : Token) : Bool :=
  t.token.isNone || decide (t.expires_at < now)

/-- Embeds Python's f-string interpolation of an optional value: `None` prints
as the string `"None"`. -/
def pyStrOfOpt : Option String → String
  | none => "None"
  | some s => s

/-- Embeds the header built in `Twitch._request`:
`f"Bearer {self.__token.token}"`. -/
def authHeader (t : Token) : String :=
  "Bearer " ++ pyStrOfOpt t.token

/-- Events of `Monitor.start`: the capture attempt (`await self.stream.save()`),
the `except Exception` logging branch, and the `finally` hand-off
(`await self.upload()`). -/
inductive StartEv
  | saveRun
  | saveErrorLogged
  | uploadRun
deriving DecidableEq

/-- Embeds `Monitor.start` from `app.py`:

  try:            await self.stream.save()
  except ...:     log.error(...)
  finally:        await self.upload()

The capture outcome and the upload outcome are the two suspension points; the
returned pair is the ordered event trace and the exception (if any) escaping
`start` — only `upload`'s own exception can escape, because the `except` swallows
the capture failure and the `finally` always runs. -/
def startTrace (saveR uploadR : Except PyErr Unit) : List StartEv × Option PyErr :=
  let pre :=
    match saveR with
    | Except.ok _ => [StartEv.saveRun]
    | Except.error _ => [StartEv.saveRun, StartEv.saveErrorLogged]
  match uploadR with
  | Except.ok _ => (pre ++ [StartEv.uploadRun], none)
  | Except.error e => (pre ++ [StartEv.uploadRun], some e)

/-- The awaited collaborator calls of `Monitor.upload`, in source order:
`yt.channels.list`, `yt.videos.insert`, `yt.videos.update`, and finally
`aiofiles.os.remove(self.stream.file)`. -/
inductive UploadEvent
  | channelsList
  | videosInsert
  | videosUpdate
  | removeFile
deriving DecidableEq

/-- Embeds `Monitor.upload` from `app.py`.  Each awaited call can raise, and the
method contains no `try`/`except` at all, so the first failure aborts the rest
of the body and the exception escapes `upload`.  The description building
between `videos.update` and the removal is pure and cannot fail.  The result is
the ordered trace of calls that were started and the escaping exception, if
any. -/
def upload (listR insR updR remR : Except PyErr Unit) : List UploadEvent × Option PyErr :=
  match listR with
  | Except.error e => ([UploadEvent.channelsList], some e)
  | Except.ok _ =>
      match insR with
      | Except.error e => ([UploadEvent.channelsList, UploadEvent.videosInsert], some e)
      | Except.ok _ =>
          match updR with
          | Except.error e =>
              ([UploadEvent.channelsList, UploadEvent.videosInsert,
                UploadEvent.videosUpdate], some e)
          | Except.ok _ =>
              match remR with
              | Except.error e =>
                  ([UploadEvent.channelsList, UploadEvent.videosInsert,
                    UploadEvent.videosUpdate, UploadEvent.removeFile], some e)
              | Except.ok _ =>
                  ([UploadEvent.channelsList, UploadEvent.videosInsert,
                    UploadEvent.videosUpdate, UploadEvent.removeFile], none)

/-- A sample live snapshot used by the concrete evaluations. -/
def sampleStream : Stream :=
  { id := "123"
    type := "live"
    title := "Test Stream"
    user_login := "chan"
    user_name := "Chan"
    game_id := "111"
    game_name := "Just Chatting"
    started_at := 0
    viewer_count := 10 }

/-- The sample snapshot after an in-stream category change (111 → 222). -/
def stream222 : Stream :=
  { sampleStream with game_id := "222", game_name := "Minecraft" }

/-- A sample live snapshot whose category id is `"0"`, the same placeholder
value `CurrentStream.new` initialises `game_id` with. -/
def zeroCategoryStream : Stream :=
  { sampleStream with game_id := "0", game_name := "Uncategorized" }

/-- A monitor for the sample channel, still offline. -/
def offlineMon : Monitor :=
  { status := Status.OFFLINE, twitch := "chan", g_refresh_token := "g", stream := none }

/-- A monitor for the sample channel while live, holding a capture record. -/
def liveMon : Monitor :=
  { status := Status.LIVE
    twitch := "chan"
    g_refresh_token := "g"
    stream := some ((CurrentStream.new 0 sampleStream).update 0 "111" "Just Chatting" 10) }

/-- The poll-cycle inputs used by the C5 evaluation: a first listing that failed
at the transport level after the retry window, then a listing that found the
channel live. -/
def pollInputs : List (Int × Except PyErr (List Stream)) :=
  [(0, Except.error PyErr.clientTransport), (1000, Except.ok [sampleStream])]

/-- The invariant carried through a sequence of `CurrentStream.update` calls:
`t` is the clock reading of the latest call so far, `f` maps each category id to
its display name.  It records that the timeline has no two consecutive equal
names, non-decreasing timestamps, and that its last entry (if any) carries the
name of the currently stored category and a timestamp not later than the
elapsed time at `t`; and that the clock has not run backwards past
`saving_at`. -/
def timelineOk (f : String → String) (t : Int) (s : CurrentStream) : Prop :=
  s.saving_at ≤ t ∧
  List.Chain' (fun a b => a.game_name ≠ b.game_name) s.timeline ∧
  List.Chain' (fun a b => a.timestamp ≤ b.timestamp) s.timeline ∧
  ∀ e ∈ s.timeline.getLast?, e.game_name = f s.game_id ∧
    e.timestamp ≤ elapsedSeconds t s.saving_at

/-- Truncation to whole seconds is monotone as long as the clock has not run
backwards past `saving_at`. -/
lemma elapsedSeconds_mono {sa t t' : Int} (h0 : sa ≤ t) (h : t ≤ t') :
    elapsedSeconds t sa ≤ elapsedSeconds t' sa := by
  unfold elapsedSeconds
  have h1 : (0 : Int) ≤ t - sa := by omega
  have h2 : (0 : Int) ≤ t' - sa := by omega
  obtain ⟨m, hm⟩ : ∃ m : Nat, t - sa = (m : Int) := ⟨(t - sa).toNat, (Int.toNat_of_nonneg h1).symm⟩
  obtain ⟨n, hn⟩ : ∃ n : Nat, t' - sa = (n : Int) := ⟨(t' - sa).toNat, (Int.toNat_of_nonneg h2).symm⟩
  have hmn : m ≤ n := by omega
  rw [hm, hn]
  calc Int.tdiv (m : Int) 1000 = ((m / 1000 : Nat) : Int) := rfl
    _ ≤ ((n / 1000 : Nat) : Int) := Int.ofNat_le.mpr (Nat.div_le_div_right hmn)
    _ = Int.tdiv (n : Int) 1000 := rfl

/-- The viewer-count block of `CurrentStream.update` leaves the timeline, the
stored category id and `saving_at` untouched. -/
lemma updateViewer_fields (s : CurrentStream) (vc : Int) :
    (s.updateViewer vc).timeline = s.timeline ∧ (s.updateViewer vc).game_id = s.game_id ∧
      (s.updateViewer vc).saving_at = s.saving_at := by
  unfold CurrentStream.updateViewer
  split <;> exact ⟨rfl, rfl, rfl⟩

/-- The invariant is preserved by the viewer-count block. -/
lemma timelineOk_updateViewer (f : String → String) (t : Int) (s : CurrentStream) (vc : Int)
    (h : timelineOk f t s) : timelineOk f t (s.updateViewer vc) := by
  obtain ⟨h1, h2, h3⟩ := updateViewer_fields s vc
  unfold timelineOk at h ⊢
  rw [h1, h2, h3]
  exact h

/-- The invariant is preserved, with the clock advanced, by the game block of
`CurrentStream.update`, provided names are an injective function of category
ids. -/
lemma timelineOk_updateGame (f : String → String) (hinj : Function.Injective f)
    {s : CurrentStream} {t now : Int} (h : timelineOk f t s) (ht : t ≤ now)
    (gid gname : String) (hg : gname = f gid) :
    timelineOk f now (s.updateGame now gid gname) := by
  obtain ⟨hsa, hnames, hts, hlast⟩ := h
  have hsan : s.saving_at ≤ now := le_trans hsa ht
  have hmono : elapsedSeconds t s.saving_at ≤ elapsedSeconds now s.saving_at :=
    elapsedSeconds_mono hsa ht
  unfold CurrentStream.updateGame
  by_cases hid : gid ≠ s.game_id
  · rw [if_pos hid]
    refine ⟨hsan, ?_, ?_, ?_⟩
    · rw [List.chain'_append]
      refine ⟨hnames, List.chain'_singleton _, ?_⟩
      intro x hx y hy
      have hy' : (⟨gname, elapsedSeconds now s.saving_at⟩ : GameUpdate) = y := by
        simpa using hy
      have hx' : x.game_name = f s.game_id := (hlast x hx).1
      subst hy'
      intro hcontr
      apply hid
      exact (hinj (hg ▸ hx' ▸ hcontr)).symm
    · rw [List.chain'_append]
      refine ⟨hts, List.chain'_singleton _, ?_⟩
      intro x hx y hy
      have hy' : (⟨gname, elapsedSeconds now s.saving_at⟩ : GameUpdate) = y := by
        simpa using hy
      subst hy'
      exact le_trans (hlast x hx).2 hmono
    · intro e he
      rw [List.getLast?_concat] at he
      have he' : (⟨gname, elapsedSeconds now s.saving_at⟩ : GameUpdate) = e := by
        simpa using he
      subst he'
      exact ⟨hg, le_refl _⟩
  · rw [if_neg hid]
    refine ⟨hsan, hnames, hts, ?_⟩
    intro e he
    exact ⟨(hlast e he).1, le_trans (hlast e he).2 hmono⟩

/-- The invariant is preserved by a full `CurrentStream.update` call. -/
lemma timelineOk_update (f : String → String) (hinj : Function.Injective f)
    {s : CurrentStream} {t now : Int} (h : timelineOk f t s) (ht : t ≤ now)
    (gid gname : String) (vc : Int) (hg : gname = f gid) :
    timelineOk f now (s.update now gid gname vc) :=
  timelineOk_updateViewer f now _ vc (timelineOk_updateGame f hinj h ht gid gname hg)

/-- The invariant is preserved by any sequence of updates with non-decreasing
clock readings. -/
lemma timelineOk_applyUpdates (f : String → String) (hinj : Function.Injective f) :
    ∀ (us : List UpdateInput) (s : CurrentStream) (t : Int), timelineOk f t s →
      (∀ u ∈ us, u.game_name = f u.game_id) →
      List.Chain (fun a b => a ≤ b) t (us.map UpdateInput.now) →
      ∃ t', timelineOk f t' (applyUpdates s us)
  | [], s, t, h, _, _ => ⟨t, h⟩
  | u :: us, s, t, h, hn, hc => by
    rw [List.map_cons, List.chain_cons] at hc
    have h1 : timelineOk f u.now (s.update u.now u.game_id u.game_name u.viewer_count) :=
      timelineOk_update f hinj h hc.1 u.game_id u.game_name u.viewer_count
        (hn u (List.mem_cons_self u us))
    exact timelineOk_applyUpdates f hinj us _ u.now h1
      (fun v hv => hn v (List.mem_cons_of_mem u hv)) hc.2

/-- C1.  The claim says a single poll cycle whose snapshot is absent moves a
LIVE channel to OFFLINE.  The code violates this: the dispatch in
`TwitchArchiver.run` guards `mon.update` with a walrus-`if` on the non-empty
filter result, so an absent snapshot is never dispatched and the monitor is left
untouched — here a LIVE monitor survives a cycle with an empty snapshot list
unchanged.  The state machine itself was built to handle absence: calling
`Monitor.update` directly with the absent snapshot would flip the status to
OFFLINE, which is the second conjunct.  The loop therefore contradicts the
state machine's own design: in production the streams API only returns live
channels, so the LIVE→OFFLINE transition is unreachable and a channel that goes
live once stays LIVE forever. -/
theorem c1_run_loop_skips_absent_snapshot :
    dispatchCycle 0 1000 [liveMon] [] = [liveMon] ∧
    (Monitor.update 0 1000 liveMon none).status = Status.OFFLINE :=
  ⟨rfl, rfl⟩

/-- C2.  `Monitor.start` wraps the capture in `try`/`except Exception`/`finally`
with the publish hand-off in the `finally`, so the hand-off runs exactly once on
every path: capture success, capture failure (exception logged and swallowed),
and independently of whether the hand-off itself then fails. -/
theorem c2_upload_invoked_exactly_once (saveR uploadR : Except PyErr Unit) :
    (startTrace saveR uploadR).1.count StartEv.uploadRun = 1 := by
  cases saveR <;> cases uploadR <;> rfl

/-- C3 counterexample.  The record reached from `CurrentStream.new` by two
updates at the same clock reading whose distinct category ids (1, then 2) carry
the same display name "A" has the timeline `[("A", 0), ("A", 0)]`: two
consecutive entries with the same category name, and elapsed durations that are
not strictly increasing.  The code only compares category ids before appending
and truncates elapsed time to whole seconds, so neither part of the claimed
invariant holds unconditionally. -/
theorem c3_counterexample :
    (applyUpdates (CurrentStream.new 0 sampleStream)
        [⟨0, "1", "A", 10⟩, ⟨0, "2", "A", 10⟩]).timeline =
      [⟨"A", 0⟩, ⟨"A", 0⟩] ∧
    ¬ (List.Chain' (fun a b => a.game_name ≠ b.game_name)
          ([⟨"A", 0⟩, ⟨"A", 0⟩] : List GameUpdate) ∧
        List.Chain' (fun a b => a.timestamp < b.timestamp)
          ([⟨"A", 0⟩, ⟨"A", 0⟩] : List GameUpdate)) := by
  constructor
  · rfl
  · intro h
    exact absurd rfl (List.chain'_cons.mp h.1).1

/-- C3 as amended.  For every CaptureRecord the code can reach — created by
`CurrentStream.new` and updated by any sequence of `CurrentStream.update` calls
whose clock readings are non-decreasing and not earlier than `saving_at` — the
elapsed durations of successive timeline entries are non-decreasing (truncation
to whole seconds allows equal values, so strict increase does not hold), and no
two consecutive entries share a category name provided the snapshots determine
display names as an injective function of category ids. -/
theorem c3_timeline_invariant (d : Int) (st : Stream) (us : List UpdateInput)
    (f : String → String) (hinj : Function.Injective f)
    (hnames : ∀ u ∈ us, u.game_name = f u.game_id)
    (htimes : List.Chain (fun a b => a ≤ b) d (us.map UpdateInput.now)) :
    List.Chain' (fun a b => a.game_name ≠ b.game_name)
        (applyUpdates (CurrentStream.new d st) us).timeline ∧
    List.Chain' (fun a b => a.timestamp ≤ b.timestamp)
        (applyUpdates (CurrentStream.new d st) us).timeline := by
  have hnew : timelineOk f d (CurrentStream.new d st) := by
    refine ⟨le_refl d, trivial, trivial, ?_⟩
    intro e he
    simp [CurrentStream.new] at he
  obtain ⟨t', h⟩ := timelineOk_applyUpdates f hinj us (CurrentStream.new d st) d hnew
    hnames htimes
  exact ⟨h.2.1, h.2.2.1⟩

/-- C3 witness: the amended invariant evaluated on a concrete one-update
history. -/
theorem c3_timeline_invariant_witness :
    List.Chain' (fun a b => a.game_name ≠ b.game_name)
        (applyUpdates (CurrentStream.new 0 sampleStream) [⟨1000, "1", "1", 10⟩]).timeline ∧
    List.Chain' (fun a b => a.timestamp ≤ b.timestamp)
        (applyUpdates (CurrentStream.new 0 sampleStream) [⟨1000, "1", "1", 10⟩]).timeline :=
  c3_timeline_invariant 0 sampleStream [⟨1000, "1", "1", 10⟩] id Function.injective_id
    (by decide) (List.Chain.cons (by decide) List.Chain.nil)

/-- C4.  The claim says an appended timeline entry's elapsed duration equals the
current time minus the moment capture of that session started.  Evaluating the
code: with the class default `saving_at` fixed at module load (t = 0 ms), a
channel that goes live at t = 1,000,000 ms and changes category at
t = 2,000,000 ms gets timeline timestamps 1000 s and 2000 s — both measured
from module load — whereas measuring from record creation, as the claim states,
would give 0 s and 1000 s.  The pydantic field default
`saving_at: datetime = datetime.utcnow()` is evaluated once at class-definition
time, not when the record is created, so every session's elapsed times are
offsets from process start. -/
theorem c4_elapsed_measured_from_module_load :
    ((Monitor.update 0 2000000
          (Monitor.update 0 1000000 offlineMon (some sampleStream))
          (some stream222)).stream.map
        (fun cs => cs.timeline.map GameUpdate.timestamp)) = some [1000, 2000] ∧
    ([1000, 2000] : List Int) ≠ [0, 1000] := by
  refine ⟨rfl, by decide⟩

/-- The backoff decorator re-raises the final transport error once every attempt
inside the retry window has failed. -/
lemma backoffRun_all_fail {α : Type} :
    ∀ l : List (Except PyErr α), l ≠ [] →
      (∀ a ∈ l, a = Except.error PyErr.clientTransport) →
      backoffRun l = Except.error PyErr.clientTransport
  | [], h, _ => absurd rfl h
  | [a], _, hf => by
      have ha := hf a (List.mem_singleton_self a)
      rw [ha]
      rfl
  | a :: b :: rest, _, hf => by
      have ha := hf a (List.mem_cons_self a (b :: rest))
      have h2 := backoffRun_all_fail (b :: rest) (by simp)
        (fun x hx => hf x (List.mem_cons_of_mem a hx))
      subst ha
      exact h2

/-- C5 counterexample.  A snapshot-listing call whose attempts all fail at the
transport level until the window elapses does fail with the transport error
(first conjunct), but the poll loop does not treat that cycle as "no data and
continue": the loop body of `TwitchArchiver.run` has no exception handler, so
the error propagates and no further cycle runs (second conjunct), whereas under
the spec's stated behaviour (`runLoopSpecModel`) the next cycle would run and
find the channel live (third conjunct). -/
theorem c5_counterexample :
    backoffRun ([Except.error PyErr.clientTransport, Except.error PyErr.clientTransport] :
        List (Except PyErr (List Stream))) = Except.error PyErr.clientTransport ∧
    runLoop 0 [offlineMon] pollInputs = Except.error PyErr.clientTransport ∧
    (runLoopSpecModel 0 [offlineMon] pollInputs).map (fun ms => ms.map Monitor.status) =
      Except.ok [Status.LIVE] :=
  ⟨rfl, rfl, rfl⟩

/-- C5 as amended.  If every attempt of a snapshot-listing call fails at the
transport level until the 60-second retry window elapses, the call fails with
the transport error; but that error is fatal to the poll loop: `run` has no
handler, so the error propagates out of the cycle and no subsequent cycle
executes. -/
theorem c5_transport_error_kills_loop {α : Type} (attempts : List (Except PyErr α))
    (hne : attempts ≠ [])
    (hfail : ∀ a ∈ attempts, a = Except.error PyErr.clientTransport)
    (d now : Int) (mons : List Monitor) (e : PyErr)
    (rest : List (Int × Except PyErr (List Stream))) :
    backoffRun attempts = Except.error PyErr.clientTransport ∧
    runLoop d mons ((now, Except.error e) :: rest) = Except.error e :=
  ⟨backoffRun_all_fail attempts hne hfail, rfl⟩

/-- C5 witness: the amended behaviour evaluated on a single failed attempt and a
single failed cycle. -/
theorem c5_transport_error_kills_loop_witness :
    backoffRun ([Except.error PyErr.clientTransport] : List (Except PyErr (List Stream))) =
      Except.error PyErr.clientTransport ∧
    runLoop 0 [offlineMon] [(0, Except.error PyErr.clientTransport)] =
      Except.error PyErr.clientTransport :=
  c5_transport_error_kills_loop [Except.error PyErr.clientTransport] (by simp)
    (by simp) 0 0 [offlineMon] PyErr.clientTransport []

/-- C6 counterexample.  A token-endpoint payload that carries `expires_in` but no
`access_token` does not make the refresh fail at all, contradicting the claim
that a payload missing `access_token` fails with an `AuthError`: `Token.__init__`
succeeds, the installed token is still expired (its `token` field is `None`),
and the request proceeds with the literal header `"Bearer None"`. -/
theorem c6_counterexample :
    Token.init 0 (some ⟨none, some 3600⟩) =
      Except.ok { token := none, expires_at := 3600 } ∧
    Token.expired 0 { token := none, expires_at := 3600 } = true ∧
    authHeader { token := none, expires_at := 3600 } = "Bearer None" :=
  ⟨rfl, rfl, rfl⟩

/-- C6 as amended.  If the payload lacks `expires_in` — the typical shape of a
non-success response, whose JSON body is an error object — `Token.__init__`
raises a `TypeError`; the backoff decorator does not retry a `TypeError` (it
only catches `aiohttp.ClientError`), so the error propagates uncaught and, the
poll loop having no handler, is fatal to the process rather than only to the
cycle.  If the payload supplies `expires_in` but lacks `access_token`, the
refresh does not fail at all: the empty token is silently installed, remains
expired, and the request is sent with authorization header "Bearer None".  The
endpoint's HTTP status itself is never checked and no `AuthError` class
exists. -/
theorem c6_token_refresh_behaviour (now : Int) (d : TokenData) :
    (d.expires_in = none →
      Token.init now (some d) = Except.error PyErr.typeError ∧
      ∀ (rest : List (Except PyErr (List Stream))),
        backoffRun (Except.error PyErr.typeError :: rest) = Except.error PyErr.typeError) ∧
    (∀ e, d.access_token = none → d.expires_in = some e →
      Token.init now (some d) = Except.ok { token := none, expires_at := now + e } ∧
      (∀ t, Token.expired t { token := none, expires_at := now + e } = true) ∧
      authHeader { token := none, expires_at := now + e } = "Bearer None") := by
  constructor
  · intro hexp
    constructor
    · simp [Token.init, hexp]
    · intro rest
      cases rest with
      | nil => rfl
      | cons b r => rfl
  · intro e hacc hexp
    refine ⟨?_, fun t => rfl, rfl⟩
    simp [Token.init, hexp, hacc]

/-- C6 witness: the amended behaviour evaluated on the two concrete payload
shapes. -/
theorem c6_token_refresh_behaviour_witness :
    Token.init 0 (some ⟨some "tok", none⟩) = Except.error PyErr.typeError ∧
    Token.init 0 (some ⟨none, some 3600⟩) =
      Except.ok { token := none, expires_at := 3600 } :=
  ⟨((c6_token_refresh_behaviour 0 ⟨some "tok", none⟩).1 rfl).1,
   ((c6_token_refresh_behaviour 0 ⟨none, some 3600⟩).2 3600 rfl rfl).1⟩

/-- C7 counterexample.  A 4xx response raises `ClientResponseError`, which is a
subclass of the `aiohttp.ClientError` that the backoff decorator retries: after
a 404 on the first attempt the call is retried, and a success on the second
attempt is returned to the caller.  The claim that the 4xx is surfaced without
retrying is therefore false — the 404 never reaches the caller here. -/
theorem c7_counterexample :
    backoffRun [Except.error (PyErr.clientStatus 404), Except.ok [sampleStream]] =
      Except.ok [sampleStream] ∧
    backoffRun [Except.error (PyErr.clientStatus 404), Except.ok [sampleStream]] ≠
      Except.error (PyErr.clientStatus 404) :=
  ⟨rfl, fun h => Except.noConfusion h⟩

/-- C7 as amended.  A query-API call that returns any 4xx raises
`ClientResponseError`, a subclass of the retried `ClientError`; the backoff
decorator therefore consumes the 4xx and retries exactly as for a transport
failure (first conjunct), and the 4xx reaches the caller only when the retry
window is exhausted (second conjunct).  No 4xx is exempt and there is no
auth-expiry special case anywhere in `Twitch._request`. -/
theorem c7_4xx_is_retried (c : Nat) {α : Type} (a : Except PyErr α)
    (rest : List (Except PyErr α)) :
    backoffRun (Except.error (PyErr.clientStatus c) :: a :: rest) = backoffRun (a :: rest) ∧
    backoffRun [(Except.error (PyErr.clientStatus c) : Except PyErr α)] =
      Except.error (PyErr.clientStatus c) :=
  ⟨rfl, rfl⟩

/-- C8 counterexample.  When the three publish calls succeed but the file
removal fails, `upload` has no handler around `aiofiles.os.remove`: the removal
error escapes `upload` as the pipeline task's failure (the second component is
`some osError`, not `none`), contradicting the claim that a deletion failure is
logged and does not propagate. -/
theorem c8_counterexample :
    upload (Except.ok ()) (Except.ok ()) (Except.ok ()) (Except.error PyErr.osError) =
      ([UploadEvent.channelsList, UploadEvent.videosInsert, UploadEvent.videosUpdate,
        UploadEvent.removeFile], some PyErr.osError) ∧
    (some PyErr.osError ≠ (none : Option PyErr)) :=
  ⟨rfl, by decide⟩

/-- C8 as amended.  After the publish collaborator succeeds the local capture
file is deleted (the removal call is reached exactly when all three publish
calls succeed), and if any publish call fails the removal is never reached, so
the file is retained; but a deletion failure is not caught: the error escapes
`upload` instead of being logged and suppressed. -/
theorem c8_upload_deletion_semantics (e : PyErr) (r1 r2 r3 : Except PyErr Unit) :
    upload (Except.ok ()) (Except.ok ()) (Except.ok ()) (Except.ok ()) =
      ([UploadEvent.channelsList, UploadEvent.videosInsert, UploadEvent.videosUpdate,
        UploadEvent.removeFile], none) ∧
    upload (Except.ok ()) (Except.ok ()) (Except.ok ()) (Except.error e) =
      ([UploadEvent.channelsList, UploadEvent.videosInsert, UploadEvent.videosUpdate,
        UploadEvent.removeFile], some e) ∧
    upload (Except.ok ()) (Except.ok ()) (Except.error e) r3 =
      ([UploadEvent.channelsList, UploadEvent.videosInsert, UploadEvent.videosUpdate],
        some e) ∧
    upload (Except.ok ()) (Except.error e) r2 r3 =
      ([UploadEvent.channelsList, UploadEvent.videosInsert], some e) ∧
    upload (Except.error e) r1 r2 r3 = ([UploadEvent.channelsList], some e) :=
  ⟨rfl, rfl, rfl, rfl, rfl⟩

/-- C9.  The poll interval computed by `TwitchArchiver.run` is 30 seconds
exactly when some returned snapshot has type "live", and 2 seconds exactly when
none has; with two configured channels of which one is live, the returned
snapshot list contains a live entry and the long interval is chosen. -/
theorem c9_refresh_interval (streams : List Stream) :
    (computeRefresh streams = 30 ↔ ∃ s ∈ streams, s.type = "live") ∧
    (computeRefresh streams = 2 ↔ ∀ s ∈ streams, s.type ≠ "live") := by
  have hmem : ((streams.map (fun s => s.type)).contains "live" = true) ↔
      ∃ s ∈ streams, s.type = "live" := by
    simp [List.contains, List.mem_map, eq_comm]
  unfold computeRefresh
  by_cases h : (streams.map (fun s => s.type)).contains "live" = true
  · rw [if_pos h]
    refine ⟨iff_of_true rfl (hmem.mp h), iff_of_false (by decide) ?_⟩
    intro hall
    obtain ⟨s, hs, hst⟩ := hmem.mp h
    exact hall s hs hst
  · rw [if_neg h]
    refine ⟨iff_of_false (by decide) ?_, iff_of_true rfl ?_⟩
    · intro hex
      exact h (hmem.mpr hex)
    · intro s hs hst
      exact h (hmem.mpr ⟨s, hs, hst⟩)

/-- C10 counterexample.  A snapshot whose category id is "0" — the very
placeholder `CurrentStream.new` initialises `game_id` with — takes the channel
from OFFLINE to LIVE, yet the first update appends nothing because
`game_id != self.game_id` is false, so the new CaptureRecord's timeline is
empty while the channel is LIVE, contradicting the claim that the first update
always appends one entry. -/
theorem c10_counterexample :
    (Monitor.update 0 0 offlineMon (some zeroCategoryStream)).status = Status.LIVE ∧
    ((Monitor.update 0 0 offlineMon (some zeroCategoryStream)).stream.map
        (fun cs => cs.timeline)) = some [] :=
  ⟨rfl, rfl⟩

/-- C10 as amended.  Immediately after an OFFLINE→LIVE transition whose snapshot
has a category id different from "0" (the placeholder set at creation), the
first update appends exactly one entry holding the snapshot's category name, so
the timeline holds exactly one entry at that point; for a snapshot with category
id "0" it stays empty (see the counterexample). -/
theorem c10_first_update_appends (d now : Int) (m : Monitor) (s : Stream)
    (hm : m.status = Status.OFFLINE) (hl : s.type = "live") (hg : s.game_id ≠ "0") :
    (Monitor.update d now m (some s)).status = Status.LIVE ∧
    ((Monitor.update d now m (some s)).stream.map (fun cs => cs.timeline)) =
      some [⟨s.game_name, elapsedSeconds now d⟩] := by
  have hlive : isLiveSnapshot (some s) = true := by
    simp [isLiveSnapshot, hl]
  have hupd : (CurrentStream.new d s).update now s.game_id s.game_name s.viewer_count =
      { (CurrentStream.new d s) with
        game_id := s.game_id
        game_name := s.game_name
        timeline := [⟨s.game_name, elapsedSeconds now d⟩] } := by
    unfold CurrentStream.update CurrentStream.updateGame CurrentStream.updateViewer
    rw [if_pos (show s.game_id ≠ (CurrentStream.new d s).game_id from hg)]
    rw [if_neg (show ¬ s.viewer_count ≠
      ({ (CurrentStream.new d s) with
          game_id := s.game_id
          game_name := s.game_name
          timeline := (CurrentStream.new d s).timeline ++
            [⟨s.game_name, elapsedSeconds now (CurrentStream.new d s).saving_at⟩]
        } : CurrentStream).viewer_count from fun hc => hc rfl)]
    rfl
  unfold Monitor.update
  rw [hm, hlive]
  refine ⟨rfl, ?_⟩
  show some ((CurrentStream.new d s).update now s.game_id s.game_name s.viewer_count).timeline =
    some [⟨s.game_name, elapsedSeconds now d⟩]
  rw [hupd]

/-- C10 witness: the amended statement evaluated at the sample snapshot
(category id "111"). -/
theorem c10_first_update_appends_witness :
    (Monitor.update 0 0 offlineMon (some sampleStream)).status = Status.LIVE ∧
    ((Monitor.update 0 0 offlineMon (some sampleStream)).stream.map
        (fun cs => cs.timeline)) = some [⟨"Just Chatting", 0⟩] :=
  c10_first_update_appends 0 0 offlineMon sampleStream rfl rfl (by decide)

end VODArchiver
